import Mathlib

/-!
Verification of the market-dashboard composite-score core.

Shallow embedding of `src/lib/composite-score.ts` and the scoring part of
`src/Market.tsx`.  JavaScript numbers are modelled as rationals, `null` /
`undefined` fields as `Option`.  `Math.round` rounds half toward positive
infinity, which on rationals is the floor of the value plus one half.
-/

/-- JavaScript `Math.round`: round half toward positive infinity. -/
def mathRound (x : ℚ) : ℤ := ⌊x + 1/2⌋

/-- One row of `INDICATOR_STATS` in `src/lib/composite-score.ts`. -/
structure IndicatorStat where
  mean : ℚ
  std : ℚ
  invert : Bool
  weight : ℚ
deriving DecidableEq

/-- `INDICATOR_STATS['HY Spread']`. -/
def hySpreadStat : IndicatorStat := ⟨5.134, 2.5271, false, 0.281⟩

/-- `INDICATOR_STATS['VIX']`. -/
def vixStat : IndicatorStat := ⟨20.097, 8.0555, false, 0.2569⟩

/-- `INDICATOR_STATS['Initial Claims']`. -/
def initialClaimsStat : IndicatorStat := ⟨358862.6001, 318057.9358, false, 0.2351⟩

/-- `INDICATOR_STATS['S&P vs 200MA']`. -/
def spyVs200MAStat : IndicatorStat := ⟨3.4949, 7.9576, true, 0.1628⟩

/-- `INDICATOR_STATS['Yield Curve 10Y-2Y']`. -/
def yieldCurve10Y2YStat : IndicatorStat := ⟨0.9484, 0.929, false, 0.0629⟩

/-- `CompositeScoreInput` from `src/lib/composite-score.ts`: a sparse record
where each of the ten accepted key spellings is either absent/null (`none`)
or carries a numeric value. -/
structure CompositeScoreInput where
  hySpread : Option ℚ
  hy_spread : Option ℚ
  vix : Option ℚ
  initialClaims : Option ℚ
  initial_claims : Option ℚ
  spyVs200MA : Option ℚ
  spyVs200ma : Option ℚ
  spy_vs_200ma : Option ℚ
  yieldCurve10Y2Y : Option ℚ
  yield_curve_10y2y : Option ℚ
deriving DecidableEq

/-- `getValue` from `src/lib/composite-score.ts`: the first value among the
candidate keys that is neither `undefined` nor `null`. -/
def getValue : List (Option ℚ) → Option ℚ
  | [] => none
  | some v :: _ => some v
  | none :: rest => getValue rest

/-- One `if (x !== null) { ... }` block of `calculateCompositeScore`: given
the pair `(weightedZScore, totalWeight)` it adds the indicator's weighted
z-score and its weight when the raw value is present. -/
def accumulate (stat : IndicatorStat) (v : Option ℚ) (acc : ℚ × ℚ) : ℚ × ℚ :=
  match v with
  | none => acc
  | some x =>
    let value := if stat.invert then -x else x
    let zscore := (value - stat.mean) / stat.std
    (acc.1 + zscore * stat.weight, acc.2 + stat.weight)

/-- `calculateCompositeScore` from `src/lib/composite-score.ts`. -/
def calculateCompositeScore (data : CompositeScoreInput) : ℚ :=
  let hySpread := getValue [data.hySpread, data.hy_spread]
  let vix := getValue [data.vix]
  let initialClaims := getValue [data.initialClaims, data.initial_claims]
  let spyVs200MA := getValue [data.spyVs200MA, data.spyVs200ma, data.spy_vs_200ma]
  let yieldCurve10Y2Y := getValue [data.yieldCurve10Y2Y, data.yield_curve_10y2y]
  let acc :=
    accumulate yieldCurve10Y2YStat yieldCurve10Y2Y
      (accumulate spyVs200MAStat spyVs200MA
        (accumulate initialClaimsStat initialClaims
          (accumulate vixStat vix
            (accumulate hySpreadStat hySpread (0, 0)))))
  if acc.2 = 0 then 50
  else
    let avgZScore := acc.1 / acc.2
    let score := avgZScore * 10 + 50
    (mathRound (max 0 (min 100 score) * 100) : ℚ) / 100

/-- The input with every key absent. -/
def emptyInput : CompositeScoreInput :=
  ⟨none, none, none, none, none, none, none, none, none, none⟩

/-- Replace the `vix` key of a `CompositeScoreInput`, all other keys kept. -/
def setVix (d : CompositeScoreInput) (v : Option ℚ) : CompositeScoreInput :=
  ⟨d.hySpread, d.hy_spread, v, d.initialClaims, d.initial_claims,
    d.spyVs200MA, d.spyVs200ma, d.spy_vs_200ma, d.yieldCurve10Y2Y, d.yield_curve_10y2y⟩

/-- Replace the `spyVs200MA` key of a `CompositeScoreInput`, all other keys kept. -/
def setSpyVs200MA (d : CompositeScoreInput) (v : Option ℚ) : CompositeScoreInput :=
  ⟨d.hySpread, d.hy_spread, d.vix, d.initialClaims, d.initial_claims,
    v, d.spyVs200ma, d.spy_vs_200ma, d.yieldCurve10Y2Y, d.yield_curve_10y2y⟩

/-- The clamp-round postprocessing of `calculateCompositeScore` always lands
in the closed interval from 0 to 100. -/
lemma clampRound_mem (x : ℚ) :
    0 ≤ (mathRound (max 0 (min 100 x) * 100) : ℚ) / 100 ∧
      (mathRound (max 0 (min 100 x) * 100) : ℚ) / 100 ≤ 100 := by
  have h0 : (0 : ℚ) ≤ max 0 (min 100 x) := le_max_left _ _
  have h1 : max 0 (min 100 x) ≤ 100 := max_le (by norm_num) (min_le_left _ _)
  constructor
  · apply div_nonneg _ (by norm_num)
    have hz : (0 : ℤ) ≤ mathRound (max 0 (min 100 x) * 100) := by
      unfold mathRound
      have : (0 : ℚ) ≤ max 0 (min 100 x) * 100 + 1/2 := by nlinarith
      exact Int.floor_nonneg.mpr this
    exact_mod_cast hz
  · rw [div_le_iff₀ (by norm_num : (0:ℚ) < 100)]
    have hz : mathRound (max 0 (min 100 x) * 100) ≤ 10000 := by
      unfold mathRound
      have hlt : max 0 (min 100 x) * 100 + 1/2 < ((10001 : ℤ) : ℚ) := by
        push_cast
        nlinarith
      have := Int.floor_lt.mpr hlt
      omega
    calc (mathRound (max 0 (min 100 x) * 100) : ℚ) ≤ (10000 : ℚ) := by exact_mod_cast hz
    _ ≤ 100 * 100 := by norm_num

/-- C1: for every `CompositeScoreInput`, whatever subset of keys it
populates, `calculateCompositeScore` returns a value between 0 and 100
inclusive. -/
theorem calculateCompositeScore_range (data : CompositeScoreInput) :
    0 ≤ calculateCompositeScore data ∧ calculateCompositeScore data ≤ 100 := by
  unfold calculateCompositeScore
  dsimp only
  split
  · norm_num
  · exact clampRound_mem _

/-- C2: when every one of the ten accepted keys is absent or null,
`calculateCompositeScore` returns exactly 50. -/
theorem calculateCompositeScore_empty (data : CompositeScoreInput)
    (h1 : data.hySpread = none) (h2 : data.hy_spread = none)
    (h3 : data.vix = none)
    (h4 : data.initialClaims = none) (h5 : data.initial_claims = none)
    (h6 : data.spyVs200MA = none) (h7 : data.spyVs200ma = none)
    (h8 : data.spy_vs_200ma = none)
    (h9 : data.yieldCurve10Y2Y = none) (h10 : data.yield_curve_10y2y = none) :
    calculateCompositeScore data = 50 := by
  unfold calculateCompositeScore
  rw [h1, h2, h3, h4, h5, h6, h7, h8, h9, h10]
  rfl

/-- C2 witness: the all-absent input evaluates to 50. -/
theorem calculateCompositeScore_empty_witness : calculateCompositeScore emptyInput = 50 :=
  calculateCompositeScore_empty emptyInput rfl rfl rfl rfl rfl rfl rfl rfl rfl rfl

/-- C7: each storage-alias spelling of a field scores identically to the
verbose spelling, and when several alias keys are populated the earliest in
the fixed priority order decides the result. -/
theorem calculateCompositeScore_alias (v a b : ℚ) :
    (calculateCompositeScore ⟨some v, none, none, none, none, none, none, none, none, none⟩ =
      calculateCompositeScore ⟨none, some v, none, none, none, none, none, none, none, none⟩) ∧
    (calculateCompositeScore ⟨none, none, none, some v, none, none, none, none, none, none⟩ =
      calculateCompositeScore ⟨none, none, none, none, some v, none, none, none, none, none⟩) ∧
    (calculateCompositeScore ⟨none, none, none, none, none, some v, none, none, none, none⟩ =
      calculateCompositeScore ⟨none, none, none, none, none, none, some v, none, none, none⟩) ∧
    (calculateCompositeScore ⟨none, none, none, none, none, some v, none, none, none, none⟩ =
      calculateCompositeScore ⟨none, none, none, none, none, none, none, some v, none, none⟩) ∧
    (calculateCompositeScore ⟨none, none, none, none, none, none, none, none, some v, none⟩ =
      calculateCompositeScore ⟨none, none, none, none, none, none, none, none, none, some v⟩) ∧
    (calculateCompositeScore ⟨some a, some b, none, none, none, none, none, none, none, none⟩ =
      calculateCompositeScore ⟨some a, none, none, none, none, none, none, none, none, none⟩) ∧
    (calculateCompositeScore ⟨none, none, none, some a, some b, none, none, none, none, none⟩ =
      calculateCompositeScore ⟨none, none, none, some a, none, none, none, none, none, none⟩) ∧
    (calculateCompositeScore ⟨none, none, none, none, none, some a, some b, some b, none, none⟩ =
      calculateCompositeScore ⟨none, none, none, none, none, some a, none, none, none, none⟩) ∧
    (calculateCompositeScore ⟨none, none, none, none, none, none, some a, some b, none, none⟩ =
      calculateCompositeScore ⟨none, none, none, none, none, none, some a, none, none, none⟩) ∧
    (calculateCompositeScore ⟨none, none, none, none, none, none, none, none, some a, some b⟩ =
      calculateCompositeScore ⟨none, none, none, none, none, none, none, none, some a, none⟩) := by
  refine ⟨rfl, rfl, rfl, rfl, rfl, rfl, rfl, rfl, rfl, rfl⟩

/-- `accumulate` with an absent value leaves the accumulator unchanged. -/
lemma accumulate_none (stat : IndicatorStat) (acc : ℚ × ℚ) :
    accumulate stat none acc = acc := rfl

/-- `accumulate` with a present value, written as an explicit pair. -/
lemma accumulate_some (stat : IndicatorStat) (x : ℚ) (acc : ℚ × ℚ) :
    accumulate stat (some x) acc =
      (acc.1 + ((if stat.invert then -x else x) - stat.mean) / stat.std * stat.weight,
        acc.2 + stat.weight) := rfl

/-- `accumulate` preserves an inequality of weighted z-scores when the total
weights agree. -/
lemma accumulate_mono (stat : IndicatorStat) (v : Option ℚ) {p q : ℚ × ℚ}
    (h1 : p.1 ≤ q.1) (h2 : p.2 = q.2) :
    (accumulate stat v p).1 ≤ (accumulate stat v q).1 ∧
      (accumulate stat v p).2 = (accumulate stat v q).2 := by
  cases v with
  | none => exact ⟨h1, h2⟩
  | some x =>
    rw [accumulate_some, accumulate_some]
    exact ⟨add_le_add_right h1 _, by rw [h2]⟩

/-- `accumulate` never decreases the total weight when the indicator weight
is nonnegative. -/
lemma accumulate_snd_le (stat : IndicatorStat) (v : Option ℚ) (p : ℚ × ℚ)
    (hw : 0 ≤ stat.weight) : p.2 ≤ (accumulate stat v p).2 := by
  cases v with
  | none => exact le_refl _
  | some x => rw [accumulate_some]; linarith

/-- The clamp-round postprocessing of `calculateCompositeScore` is monotone. -/
lemma clampRound_mono {x y : ℚ} (h : x ≤ y) :
    (mathRound (max 0 (min 100 x) * 100) : ℚ) / 100 ≤
      (mathRound (max 0 (min 100 y) * 100) : ℚ) / 100 := by
  have hc : max 0 (min 100 x) ≤ max 0 (min 100 y) :=
    max_le_max (le_refl 0) (min_le_min (le_refl 100) h)
  have hf : mathRound (max 0 (min 100 x) * 100) ≤ mathRound (max 0 (min 100 y) * 100) := by
    unfold mathRound
    apply Int.floor_le_floor
    nlinarith
  have hq : (mathRound (max 0 (min 100 x) * 100) : ℚ) ≤
      (mathRound (max 0 (min 100 y) * 100) : ℚ) := by exact_mod_cast hf
  gcongr

/-- The tail of `calculateCompositeScore` (neutral-50 guard, rescaling,
clamping, rounding) is monotone in the weighted z-score when the total
weights agree and are positive. -/
lemma finalize_mono {p q : ℚ × ℚ} (h1 : p.1 ≤ q.1) (h2 : p.2 = q.2) (hpos : 0 < p.2) :
    (if p.2 = 0 then (50:ℚ)
      else (mathRound (max 0 (min 100 (p.1 / p.2 * 10 + 50)) * 100) : ℚ) / 100) ≤
    (if q.2 = 0 then (50:ℚ)
      else (mathRound (max 0 (min 100 (q.1 / q.2 * 10 + 50)) * 100) : ℚ) / 100) := by
  rw [if_neg (ne_of_gt hpos), if_neg (by rw [← h2]; exact ne_of_gt hpos)]
  apply clampRound_mono
  have hdiv : p.1 / p.2 ≤ q.1 / q.2 := by
    rw [← h2]
    gcongr
  linarith

/-- C3 counterexample: two distinct `vix` values whose composite scores
coincide (the pre-rounding score saturates the upper clamp at 100), so the
strict-increase claim fails. -/
theorem composite_vix_strict_counterexample :
    (100 : ℚ) < 101 ∧
    calculateCompositeScore (setVix emptyInput (some 100)) =
      calculateCompositeScore (setVix emptyInput (some 101)) := by
  constructor
  · norm_num
  · norm_num [calculateCompositeScore, setVix, emptyInput, getValue, accumulate,
      hySpreadStat, vixStat, initialClaimsStat, spyVs200MAStat, yieldCurve10Y2YStat,
      mathRound, min_def, max_def]

/-- C3 amended: holding all other keys fixed, increasing the `vix` key
weakly increases the composite score, and increasing the `spyVs200MA` key
weakly decreases it (strictness fails at the clamp and rounding steps). -/
theorem composite_monotone_vix_antitone_spy (d : CompositeScoreInput) (v1 v2 : ℚ)
    (h : v1 ≤ v2) :
    calculateCompositeScore (setVix d (some v1)) ≤
      calculateCompositeScore (setVix d (some v2)) ∧
    calculateCompositeScore (setSpyVs200MA d (some v2)) ≤
      calculateCompositeScore (setSpyVs200MA d (some v1)) := by
  constructor
  · unfold calculateCompositeScore setVix
    dsimp only [getValue]
    have hbase : (accumulate vixStat (some v1)
          (accumulate hySpreadStat (getValue [d.hySpread, d.hy_spread]) (0, 0))).1 ≤
        (accumulate vixStat (some v2)
          (accumulate hySpreadStat (getValue [d.hySpread, d.hy_spread]) (0, 0))).1 ∧
        (accumulate vixStat (some v1)
          (accumulate hySpreadStat (getValue [d.hySpread, d.hy_spread]) (0, 0))).2 =
        (accumulate vixStat (some v2)
          (accumulate hySpreadStat (getValue [d.hySpread, d.hy_spread]) (0, 0))).2 := by
      rw [accumulate_some, accumulate_some]
      refine ⟨?_, rfl⟩
      have hz : ((if vixStat.invert then -v1 else v1) - vixStat.mean) / vixStat.std * vixStat.weight ≤
          ((if vixStat.invert then -v2 else v2) - vixStat.mean) / vixStat.std * vixStat.weight := by
        simp only [vixStat]
        norm_num
        linarith
      exact add_le_add_left hz _
    have h3 := accumulate_mono initialClaimsStat
      (getValue [d.initialClaims, d.initial_claims]) hbase.1 hbase.2
    have h4 := accumulate_mono spyVs200MAStat
      (getValue [d.spyVs200MA, d.spyVs200ma, d.spy_vs_200ma]) h3.1 h3.2
    have h5 := accumulate_mono yieldCurve10Y2YStat
      (getValue [d.yieldCurve10Y2Y, d.yield_curve_10y2y]) h4.1 h4.2
    have hA : (0:ℚ) ≤ (accumulate hySpreadStat (getValue [d.hySpread, d.hy_spread]) (0, 0)).2 := by
      have := accumulate_snd_le hySpreadStat (getValue [d.hySpread, d.hy_spread]) (0, 0)
        (by norm_num [hySpreadStat])
      simpa using this
    have hv : (0:ℚ) < (accumulate vixStat (some v1)
        (accumulate hySpreadStat (getValue [d.hySpread, d.hy_spread]) (0, 0))).2 := by
      rw [accumulate_some]
      have : vixStat.weight = 0.2569 := rfl
      dsimp only
      rw [this]
      linarith
    have hic := accumulate_snd_le initialClaimsStat
      (getValue [d.initialClaims, d.initial_claims])
      (accumulate vixStat (some v1)
        (accumulate hySpreadStat (getValue [d.hySpread, d.hy_spread]) (0, 0)))
      (by norm_num [initialClaimsStat])
    have hspy := accumulate_snd_le spyVs200MAStat
      (getValue [d.spyVs200MA, d.spyVs200ma, d.spy_vs_200ma])
      (accumulate initialClaimsStat (getValue [d.initialClaims, d.initial_claims])
        (accumulate vixStat (some v1)
          (accumulate hySpreadStat (getValue [d.hySpread, d.hy_spread]) (0, 0))))
      (by norm_num [spyVs200MAStat])
    have hyc := accumulate_snd_le yieldCurve10Y2YStat
      (getValue [d.yieldCurve10Y2Y, d.yield_curve_10y2y])
      (accumulate spyVs200MAStat (getValue [d.spyVs200MA, d.spyVs200ma, d.spy_vs_200ma])
        (accumulate initialClaimsStat (getValue [d.initialClaims, d.initial_claims])
          (accumulate vixStat (some v1)
            (accumulate hySpreadStat (getValue [d.hySpread, d.hy_spread]) (0, 0)))))
      (by norm_num [yieldCurve10Y2YStat])
    exact finalize_mono h5.1 h5.2 (by linarith)
  · unfold calculateCompositeScore setSpyVs200MA
    dsimp only [getValue]
    have hbase : (accumulate spyVs200MAStat (some v2)
          (accumulate initialClaimsStat (getValue [d.initialClaims, d.initial_claims])
            (accumulate vixStat (getValue [d.vix])
              (accumulate hySpreadStat (getValue [d.hySpread, d.hy_spread]) (0, 0))))).1 ≤
        (accumulate spyVs200MAStat (some v1)
          (accumulate initialClaimsStat (getValue [d.initialClaims, d.initial_claims])
            (accumulate vixStat (getValue [d.vix])
              (accumulate hySpreadStat (getValue [d.hySpread, d.hy_spread]) (0, 0))))).1 ∧
        (accumulate spyVs200MAStat (some v2)
          (accumulate initialClaimsStat (getValue [d.initialClaims, d.initial_claims])
            (accumulate vixStat (getValue [d.vix])
              (accumulate hySpreadStat (getValue [d.hySpread, d.hy_spread]) (0, 0))))).2 =
        (accumulate spyVs200MAStat (some v1)
          (accumulate initialClaimsStat (getValue [d.initialClaims, d.initial_claims])
            (accumulate vixStat (getValue [d.vix])
              (accumulate hySpreadStat (getValue [d.hySpread, d.hy_spread]) (0, 0))))).2 := by
      rw [accumulate_some, accumulate_some]
      refine ⟨?_, rfl⟩
      have hz : ((if spyVs200MAStat.invert then -v2 else v2) - spyVs200MAStat.mean) /
            spyVs200MAStat.std * spyVs200MAStat.weight ≤
          ((if spyVs200MAStat.invert then -v1 else v1) - spyVs200MAStat.mean) /
            spyVs200MAStat.std * spyVs200MAStat.weight := by
        simp only [spyVs200MAStat]
        norm_num
        linarith
      exact add_le_add_left hz _
    have h5 := accumulate_mono yieldCurve10Y2YStat
      (getValue [d.yieldCurve10Y2Y, d.yield_curve_10y2y]) hbase.1 hbase.2
    have hA : (0:ℚ) ≤ (accumulate initialClaimsStat (getValue [d.initialClaims, d.initial_claims])
        (accumulate vixStat (getValue [d.vix])
          (accumulate hySpreadStat (getValue [d.hySpread, d.hy_spread]) (0, 0)))).2 := by
      have t1 := accumulate_snd_le hySpreadStat (getValue [d.hySpread, d.hy_spread]) (0, 0)
        (by norm_num [hySpreadStat])
      have t2 := accumulate_snd_le vixStat (getValue [d.vix])
        (accumulate hySpreadStat (getValue [d.hySpread, d.hy_spread]) (0, 0))
        (by norm_num [vixStat])
      have t3 := accumulate_snd_le initialClaimsStat (getValue [d.initialClaims, d.initial_claims])
        (accumulate vixStat (getValue [d.vix])
          (accumulate hySpreadStat (getValue [d.hySpread, d.hy_spread]) (0, 0)))
        (by norm_num [initialClaimsStat])
      simp only [Prod.snd] at t1
      linarith [t1, t2, t3]
    have hsp : (0:ℚ) < (accumulate spyVs200MAStat (some v2)
        (accumulate initialClaimsStat (getValue [d.initialClaims, d.initial_claims])
          (accumulate vixStat (getValue [d.vix])
            (accumulate hySpreadStat (getValue [d.hySpread, d.hy_spread]) (0, 0))))).2 := by
      rw [accumulate_some]
      have : spyVs200MAStat.weight = 0.1628 := rfl
      dsimp only
      rw [this]
      linarith
    have hyc := accumulate_snd_le yieldCurve10Y2YStat
      (getValue [d.yieldCurve10Y2Y, d.yield_curve_10y2y])
      (accumulate spyVs200MAStat (some v2)
        (accumulate initialClaimsStat (getValue [d.initialClaims, d.initial_claims])
          (accumulate vixStat (getValue [d.vix])
            (accumulate hySpreadStat (getValue [d.hySpread, d.hy_spread]) (0, 0)))))
      (by norm_num [yieldCurve10Y2YStat])
    exact finalize_mono h5.1 h5.2 (by linarith)

/-- C3 witness: the amended monotonicity applied at vix values 1 and 2 over
the otherwise-empty input. -/
theorem composite_monotone_witness :
    calculateCompositeScore (setVix emptyInput (some 1)) ≤
      calculateCompositeScore (setVix emptyInput (some 2)) ∧
    calculateCompositeScore (setSpyVs200MA emptyInput (some 2)) ≤
      calculateCompositeScore (setSpyVs200MA emptyInput (some 1)) :=
  composite_monotone_vix_antitone_spy emptyInput 1 2 (by norm_num)

/-! ### `src/Market.tsx`: indicator scoring layer and stance classifier -/

/-- `MarketHistoryRecord` from `src/Market.tsx`, restricted to `date`, the
eleven nullable indicator columns reachable through
`indicatorToHistoryField`, and `composite_score`; the remaining price/macro
columns are never read by the functions embedded here. -/
structure MarketHistoryRecord where
  date : String
  fear_greed : Option ℚ
  vix : Option ℚ
  spy_vs_200ma : Option ℚ
  buffett_indicator : Option ℚ
  fed_balance_sheet_yoy : Option ℚ
  m2_growth_yoy : Option ℚ
  hy_spread : Option ℚ
  yield_curve_10y2y : Option ℚ
  yield_curve_10y3m : Option ℚ
  initial_claims : Option ℚ
  erp : Option ℚ
  composite_score : ℚ
deriving DecidableEq

/-- The `fearGreed` object of `MarketIndicators`. -/
structure FearGreedData where
  value : ℚ
  rating : String
  previousClose : ℚ
  oneWeekAgo : ℚ
  oneMonthAgo : ℚ
  oneYearAgo : ℚ
deriving DecidableEq

/-- The `spyVs200MA` object of `MarketIndicators`. -/
structure SpyVs200MAData where
  currentPrice : ℚ
  ma200 : ℚ
  percentAbove : ℚ
deriving DecidableEq

/-- The `buffettIndicator` object of `MarketIndicators`. -/
structure BuffettIndicatorData where
  value : ℚ
  gdp : ℚ
  marketCap : ℚ
deriving DecidableEq

/-- The `fedBalanceSheet` object of `MarketIndicators`. -/
structure FedBalanceSheetData where
  value : ℚ
  yoyChange : ℚ
deriving DecidableEq

/-- The `m2Growth` object of `MarketIndicators`. -/
structure M2GrowthData where
  value : ℚ
  yoyChange : ℚ
deriving DecidableEq

/-- The `initialClaims` object of `MarketIndicators`. -/
structure InitialClaimsData where
  value : ℚ
  fourWeekAvg : ℚ
deriving DecidableEq

/-- `MarketIndicators` from `src/Market.tsx`. -/
structure MarketIndicators where
  fearGreed : Option FearGreedData
  vix : Option ℚ
  spyVs200MA : Option SpyVs200MAData
  buffettIndicator : Option BuffettIndicatorData
  fedBalanceSheet : Option FedBalanceSheetData
  m2Growth : Option M2GrowthData
  highYieldSpread : Option ℚ
  yieldCurve10Y2Y : Option ℚ
  yieldCurve10Y3M : Option ℚ
  initialClaims : Option InitialClaimsData
  erp : Option ℚ
  treasury3m : Option ℚ
  lastUpdated : String
deriving DecidableEq

/-- `normalizeScore` from `src/Market.tsx`.  The source names the bounds
`min` and `max`; they are renamed `vmin`/`vmax` here so Lean's `min`/`max`
functions stay visible inside the body.  Call sites that rely on the
source's `invert = false` default pass `false` explicitly. -/
def normalizeScore (value vmin vmax : ℚ) (invert : Bool) : ℚ :=
  let clamped := max vmin (min vmax value)
  let normalized := ((clamped - vmin) / (vmax - vmin)) * 100
  if invert then 100 - normalized else normalized

/-- `applyExtremeCap` from `src/Market.tsx`; its `minCap = 15`,
`maxCap = 85` defaults are passed explicitly by every embedded call site. -/
def applyExtremeCap (score minCap maxCap : ℚ) : ℚ :=
  max minCap (min maxCap score)

/-- The `IndicatorTiming` union type of `src/Market.tsx`. -/
inductive IndicatorTiming
  | leading
  | coincident
  | lagging
deriving DecidableEq

/-- One entry of the `indicatorTiming` lookup table. -/
structure TimingRecord where
  timing : IndicatorTiming
  currentWeight : ℚ
  momentumWeight : ℚ
deriving DecidableEq

/-- The `indicatorTiming` record from `src/Market.tsx`. -/
def indicatorTiming (name : String) : Option TimingRecord :=
  match name with
  | "Fear & Greed" => some ⟨.lagging, 0.9, 0.1⟩
  | "VIX" => some ⟨.coincident, 0.7, 0.3⟩
  | "S&P vs 200MA" => some ⟨.coincident, 0.7, 0.3⟩
  | "Buffett Indicator" => some ⟨.lagging, 0.9, 0.1⟩
  | "Equity Risk Premium" => some ⟨.coincident, 0.7, 0.3⟩
  | "Fed Balance Sheet" => some ⟨.leading, 0.5, 0.5⟩
  | "M2 Growth" => some ⟨.leading, 0.5, 0.5⟩
  | "HY Spread" => some ⟨.leading, 0.5, 0.5⟩
  | "Yield Curve 10Y-2Y" => some ⟨.leading, 0.5, 0.5⟩
  | "Yield Curve 10Y-3M" => some ⟨.leading, 0.5, 0.5⟩
  | "Initial Claims" => some ⟨.coincident, 0.7, 0.3⟩
  | _ => none

/-- A JavaScript `number | string` value. -/
inductive NumOrStr
  | num (q : ℚ)
  | str (s : String)
deriving DecidableEq

/-- `IndicatorScore` from `src/Market.tsx` (the `min`/`max` fields keep
their source names). -/
structure IndicatorScore where
  name : String
  value : NumOrStr
  score : ℚ
  baseScore : ℚ
  momentumScore : ℚ
  category : String
  range : String
  description : String
  rawValue : ℚ
  min : ℚ
  max : ℚ
  timing : IndicatorTiming
deriving DecidableEq

/-- `calculateMomentumScore` from `src/Market.tsx`. -/
def calculateMomentumScore (currentScore : ℚ) (threeMonthAgoScore : Option ℚ) : ℚ :=
  match threeMonthAgoScore with
  | none => 50
  | some t =>
    let change := currentScore - t
    let normalizedChange := ((change + 30) / 60) * 100
    max 0 (min 100 normalizedChange)

/-- The keys of `MarketHistoryRecord` reachable through
`indicatorToHistoryField`. -/
inductive HistoryField
  | fear_greed
  | vix
  | spy_vs_200ma
  | buffett_indicator
  | fed_balance_sheet_yoy
  | m2_growth_yoy
  | hy_spread
  | yield_curve_10y2y
  | yield_curve_10y3m
  | initial_claims
  | erp
deriving DecidableEq

/-- `record[field]` together with the source's
`typeof value === 'number' ? value : null` guard. -/
def getField (field : HistoryField) (record : MarketHistoryRecord) : Option ℚ :=
  match field with
  | .fear_greed => record.fear_greed
  | .vix => record.vix
  | .spy_vs_200ma => record.spy_vs_200ma
  | .buffett_indicator => record.buffett_indicator
  | .fed_balance_sheet_yoy => record.fed_balance_sheet_yoy
  | .m2_growth_yoy => record.m2_growth_yoy
  | .hy_spread => record.hy_spread
  | .yield_curve_10y2y => record.yield_curve_10y2y
  | .yield_curve_10y3m => record.yield_curve_10y3m
  | .initial_claims => record.initial_claims
  | .erp => record.erp

/-- `getThreeMonthAgoValue` from `src/Market.tsx`; truncating
natural-number subtraction realises the source's
`Math.max(0, history.length - 13)`. -/
def getThreeMonthAgoValue (history : List MarketHistoryRecord)
    (field : HistoryField) : Option ℚ :=
  match history.get? (history.length - 13) with
  | none => none
  | some record => getField field record

/-- The `addIndicator` closure inside `calculateIndicatorScores`
(`src/Market.tsx`): the `IndicatorScore` the source pushes for one
indicator.  The source's `min`/`max` parameters are renamed `vmin`/`vmax`. -/
def addIndicator (history : List MarketHistoryRecord) (name : String) (value : NumOrStr)
    (rawValue : ℚ) (baseScoreRaw : ℚ) (category : String) (range : String)
    (description : String) (vmin vmax : ℚ) (historyField : HistoryField)
    (invert : Bool) : IndicatorScore :=
  let timing := match indicatorTiming name with
    | some t => t
    | none => ⟨.coincident, 0.7, 0.3⟩
  let baseScore := applyExtremeCap baseScoreRaw 15 85
  let threeMonthAgoValue := getThreeMonthAgoValue history historyField
  let momentumScore := match threeMonthAgoValue with
    | none => (50 : ℚ)
    | some v =>
      let threeMonthAgoScore := if invert then normalizeScore v vmin vmax true
        else normalizeScore v vmin vmax false
      calculateMomentumScore baseScoreRaw (some threeMonthAgoScore)
  let finalScore := applyExtremeCap
    (baseScore * timing.currentWeight + momentumScore * timing.momentumWeight) 15 85
  ⟨name, value, finalScore, baseScore, momentumScore, category, range, description,
    rawValue, vmin, vmax, timing.timing⟩

/-- Left-pad a digit string with zeros to the given length. -/
def padZeros (s : String) (n : ℕ) : String :=
  if s.length < n then String.mk (List.replicate (n - s.length) '0') ++ s else s

/-- `Number.prototype.toFixed` on a nonnegative rational: round half up at
the requested digit count and print exactly that many decimals. -/
def toFixedNonneg (x : ℚ) (d : ℕ) : String :=
  let n : ℤ := ⌊x * (10:ℚ)^d + 1/2⌋
  let s := toString n.toNat
  if d = 0 then s
  else
    let s2 := padZeros s (d+1)
    let k := s2.length - d
    (s2.toList.take k).asString ++ "." ++ (s2.toList.drop k).asString

/-- `Number.prototype.toFixed`: a negative input prints a minus sign
followed by its rounded magnitude. -/
def jsToFixed (x : ℚ) (d : ℕ) : String :=
  if x < 0 then "-" ++ toFixedNonneg (-x) d else toFixedNonneg x d

/-- The `${x > 0 ? '+' : ''}` sign prefix used by several display strings. -/
def plusSign (x : ℚ) : String := if 0 < x then "+" else ""

/-- `calculateIndicatorScores` from `src/Market.tsx`.  Each sequential
`scores.push` becomes one appended block; `if (data.vix)` and
`if (data.highYieldSpread)` test JavaScript truthiness, so a value of
exactly 0 is skipped like `null`, while the `!== null` guards
(`erp`, both yield curves) and the object-valued fields only test presence. -/
def calculateIndicatorScores (data : MarketIndicators)
    (history : List MarketHistoryRecord) : List IndicatorScore :=
  (match data.fearGreed with
    | some fg =>
      [addIndicator history ("Fear & Greed") (NumOrStr.num fg.value) fg.value
        (100 - fg.value) ("sentiment") ("0-100")
        ("낮을수록(공포) 매력 상승, 높을수록(탐욕) 매력 하락") 0 100 HistoryField.fear_greed true]
    | none => [])
  ++ (match data.vix with
    | some v =>
      if v = 0 then []
      else [addIndicator history ("VIX") (NumOrStr.str (jsToFixed v 1)) v
        (normalizeScore v 12 40 false) ("sentiment") ("12-40")
        ("높을수록(공포) 매력 상승. 40+ 패닉은 적극 매수 구간") 12 40 HistoryField.vix false]
    | none => [])
  ++ (match data.spyVs200MA with
    | some s =>
      [addIndicator history ("S&P vs 200MA")
        (NumOrStr.str (plusSign s.percentAbove ++ jsToFixed s.percentAbove 1 ++ "%"))
        s.percentAbove (normalizeScore s.percentAbove (-10) 10 true) ("sentiment")
        ("-10% ~ +10%") ("200일선 아래일수록 매력 상승 (저점 매수 기회)") (-10) 10
        HistoryField.spy_vs_200ma true]
    | none => [])
  ++ (match data.buffettIndicator with
    | some b =>
      [addIndicator history ("Buffett Indicator")
        (NumOrStr.str (jsToFixed b.value 0 ++ "%")) b.value
        (normalizeScore b.value 80 250 true) ("valuation") ("80-250%")
        ("시총/GDP 비율. 낮을수록(저평가) 매력 상승") 80 250
        HistoryField.buffett_indicator true]
    | none => [])
  ++ (match data.erp with
    | some e =>
      [addIndicator history ("Equity Risk Premium")
        (NumOrStr.str (plusSign e ++ jsToFixed e 2 ++ "%")) e
        (normalizeScore e (-2) 6 false) ("valuation") ("-2% ~ +6%")
        ("채권 대비 주식 초과수익률. 높을수록 매력 상승") (-2) 6 HistoryField.erp false]
    | none => [])
  ++ (match data.fedBalanceSheet with
    | some f =>
      [addIndicator history ("Fed Balance Sheet")
        (NumOrStr.str (plusSign f.yoyChange ++ jsToFixed f.yoyChange 1 ++ "% YoY"))
        f.yoyChange (normalizeScore f.yoyChange (-5) 15 true) ("liquidity")
        ("-5% ~ +15%") ("긴축(QT) 중일수록 매력 상승. 완화 전환 시 상승 여력") (-5) 15
        HistoryField.fed_balance_sheet_yoy true]
    | none => [])
  ++ (match data.m2Growth with
    | some m =>
      [addIndicator history ("M2 Growth")
        (NumOrStr.str (plusSign m.yoyChange ++ jsToFixed m.yoyChange 1 ++ "% YoY"))
        m.yoyChange (normalizeScore m.yoyChange (-5) 10 true) ("liquidity")
        ("-5% ~ +10%") ("통화량 감소 중일수록 매력 상승. 확대 전환 시 상승 여력") (-5) 10
        HistoryField.m2_growth_yoy true]
    | none => [])
  ++ (match data.highYieldSpread with
    | some h =>
      if h = 0 then []
      else [addIndicator history ("HY Spread")
        (NumOrStr.str (jsToFixed h 2 ++ "%")) h (normalizeScore h 2.5 8 false)
        ("credit") ("2.5-8%") ("높을수록(신용위기 우려) 매력 상승. 6%+ 위기 = 기회") 2.5 8
        HistoryField.hy_spread false]
    | none => [])
  ++ (match data.yieldCurve10Y2Y with
    | some y =>
      [addIndicator history ("Yield Curve 10Y-2Y")
        (NumOrStr.str (plusSign y ++ jsToFixed y 2 ++ "%")) y
        (normalizeScore y (-1) 2 false) ("macro") ("-1% ~ +2%")
        ("정상(+)일수록 매력 상승. 역전(-) = 침체 우려") (-1) 2
        HistoryField.yield_curve_10y2y false]
    | none => [])
  ++ (match data.yieldCurve10Y3M with
    | some y =>
      [addIndicator history ("Yield Curve 10Y-3M")
        (NumOrStr.str (plusSign y ++ jsToFixed y 2 ++ "%")) y
        (normalizeScore y (-1) 2 false) ("macro") ("-1% ~ +2%")
        ("연준 중시 지표. 정상(+)일수록 매력 상승") (-1) 2
        HistoryField.yield_curve_10y3m false]
    | none => [])
  ++ (match data.initialClaims with
    | some ic =>
      [addIndicator history ("Initial Claims")
        (NumOrStr.str (jsToFixed (ic.value / 1000) 0 ++ "K")) ic.value
        (normalizeScore ic.value 200000 400000 false) ("macro") ("200K-400K")
        ("높을수록(실업 증가) 매력 상승. 바닥 신호 = 반등 기대") 200000 400000
        HistoryField.initial_claims false]
    | none => [])

/-- `InvestmentStance` from `src/Market.tsx`. -/
inductive InvestmentStance
  | aggressive_plus
  | aggressive
  | moderate_aggressive
  | neutral
  | moderate_defensive
  | defensive
  | unknown
deriving DecidableEq

/-- `determineInvestmentStance` from `src/Market.tsx`. -/
def determineInvestmentStance (avgScore : ℚ) : InvestmentStance :=
  if avgScore ≥ 60 then .aggressive_plus
  else if avgScore ≥ 55 then .aggressive
  else if avgScore ≥ 50 then .moderate_aggressive
  else if avgScore ≥ 45 then .neutral
  else if avgScore ≥ 41 then .moderate_defensive
  else if avgScore ≥ 0 then .defensive
  else .unknown

/-- C5 counterexample: `determineInvestmentStance (-5)` returns `unknown`,
not `defensive` as the claim's boundary example states. -/
theorem determineInvestmentStance_neg5_counterexample :
    determineInvestmentStance (-5) = InvestmentStance.unknown ∧
      determineInvestmentStance (-5) ≠ InvestmentStance.defensive := by
  have h : determineInvestmentStance (-5) = InvestmentStance.unknown := by
    norm_num [determineInvestmentStance]
  refine ⟨h, ?_⟩
  rw [h]
  simp

/-- C5 amended: the classifier is a top-down first-match threshold lookup
with `determineStance 60 = aggressive_plus`, `59.99 ↦ aggressive`,
`40.99 ↦ defensive`, never `unknown` on nonnegative inputs — but a negative
input such as `-5` falls through every threshold and yields `unknown`. -/
theorem determineInvestmentStance_spec :
    determineInvestmentStance 60 = InvestmentStance.aggressive_plus ∧
    determineInvestmentStance 59.99 = InvestmentStance.aggressive ∧
    determineInvestmentStance 40.99 = InvestmentStance.defensive ∧
    determineInvestmentStance (-5) = InvestmentStance.unknown ∧
    ∀ x : ℚ, 0 ≤ x → determineInvestmentStance x ≠ InvestmentStance.unknown := by
  refine ⟨by norm_num [determineInvestmentStance], by norm_num [determineInvestmentStance],
    by norm_num [determineInvestmentStance], by norm_num [determineInvestmentStance], ?_⟩
  intro x hx
  unfold determineInvestmentStance
  split_ifs <;> simp

/-- C5 witness: the never-unknown clause applied at the concrete score 3. -/
theorem determineInvestmentStance_spec_witness :
    determineInvestmentStance 3 ≠ InvestmentStance.unknown :=
  determineInvestmentStance_spec.2.2.2.2 3 (by norm_num)

/-- The timing record `addIndicator` resolves for a name
(`indicatorTiming[name] || coincident-default`). -/
def timingOf (name : String) : TimingRecord :=
  match indicatorTiming name with
  | some t => t
  | none => ⟨.coincident, 0.7, 0.3⟩

/-- Every row of the `indicatorTiming` table pairs its timing class with the
weights 0.5/0.5, 0.7/0.3 or 0.9/0.1. -/
lemma indicatorTiming_mem (name : String) (t : TimingRecord)
    (h : indicatorTiming name = some t) :
    t = ⟨.leading, 0.5, 0.5⟩ ∨ t = ⟨.coincident, 0.7, 0.3⟩ ∨ t = ⟨.lagging, 0.9, 0.1⟩ := by
  unfold indicatorTiming at h
  split at h <;>
    first
      | (simp only [Option.some.injEq] at h
         subst h
         first
           | exact Or.inl rfl
           | exact Or.inr (Or.inl rfl)
           | exact Or.inr (Or.inr rfl))
      | simp at h

/-- The resolved timing record is always one of the three weight pairs. -/
lemma timingOf_cases (name : String) :
    timingOf name = ⟨.leading, 0.5, 0.5⟩ ∨ timingOf name = ⟨.coincident, 0.7, 0.3⟩ ∨
      timingOf name = ⟨.lagging, 0.9, 0.1⟩ := by
  unfold timingOf
  rcases h : indicatorTiming name with _ | t
  · exact Or.inr (Or.inl rfl)
  · rcases indicatorTiming_mem name t h with rfl | rfl | rfl
    · exact Or.inl rfl
    · exact Or.inr (Or.inl rfl)
    · exact Or.inr (Or.inr rfl)

/-- `applyExtremeCap` with the 15/85 defaults lands in the closed interval
from 15 to 85. -/
lemma applyExtremeCap_bounds (x : ℚ) :
    15 ≤ applyExtremeCap x 15 85 ∧ applyExtremeCap x 15 85 ≤ 85 :=
  ⟨le_max_left _ _, max_le (by norm_num) (min_le_left _ _)⟩

/-- The `name` field of an `addIndicator` result. -/
lemma addIndicator_name_eq (history : List MarketHistoryRecord) (name : String)
    (value : NumOrStr) (rawValue baseScoreRaw : ℚ) (category range description : String)
    (vmin vmax : ℚ) (historyField : HistoryField) (invert : Bool) :
    (addIndicator history name value rawValue baseScoreRaw category range description
      vmin vmax historyField invert).name = name := rfl

/-- The `baseScore` field of an `addIndicator` result. -/
lemma addIndicator_baseScore_eq (history : List MarketHistoryRecord) (name : String)
    (value : NumOrStr) (rawValue baseScoreRaw : ℚ) (category range description : String)
    (vmin vmax : ℚ) (historyField : HistoryField) (invert : Bool) :
    (addIndicator history name value rawValue baseScoreRaw category range description
      vmin vmax historyField invert).baseScore = applyExtremeCap baseScoreRaw 15 85 := rfl

/-- The `timing` field of an `addIndicator` result. -/
lemma addIndicator_timing_eq (history : List MarketHistoryRecord) (name : String)
    (value : NumOrStr) (rawValue baseScoreRaw : ℚ) (category range description : String)
    (vmin vmax : ℚ) (historyField : HistoryField) (invert : Bool) :
    (addIndicator history name value rawValue baseScoreRaw category range description
      vmin vmax historyField invert).timing = (timingOf name).timing := rfl

/-- The `score` field of an `addIndicator` result is the capped timing blend
of its own `baseScore` and `momentumScore` fields. -/
lemma addIndicator_score_eq (history : List MarketHistoryRecord) (name : String)
    (value : NumOrStr) (rawValue baseScoreRaw : ℚ) (category range description : String)
    (vmin vmax : ℚ) (historyField : HistoryField) (invert : Bool) :
    (addIndicator history name value rawValue baseScoreRaw category range description
      vmin vmax historyField invert).score =
      applyExtremeCap
        ((addIndicator history name value rawValue baseScoreRaw category range description
            vmin vmax historyField invert).baseScore * (timingOf name).currentWeight +
          (addIndicator history name value rawValue baseScoreRaw category range description
            vmin vmax historyField invert).momentumScore * (timingOf name).momentumWeight)
        15 85 := rfl

/-- Every element of `calculateIndicatorScores` is some `addIndicator`
result, so a property of all `addIndicator` results holds for every entry. -/
lemma calculateIndicatorScores_forall {P : IndicatorScore → Prop}
    (hP : ∀ (history : List MarketHistoryRecord) (name : String) (value : NumOrStr)
      (rawValue baseScoreRaw : ℚ) (category range description : String)
      (vmin vmax : ℚ) (historyField : HistoryField) (invert : Bool),
      P (addIndicator history name value rawValue baseScoreRaw category range description
          vmin vmax historyField invert))
    (data : MarketIndicators) (history : List MarketHistoryRecord) :
    ∀ s ∈ calculateIndicatorScores data history, P s := by
  rcases data with ⟨fg, vx, spy, buf, fbs, m2g, hys, yc2, yc3, ic, er, t3, lu⟩
  intro s hs
  unfold calculateIndicatorScores at hs
  dsimp only at hs
  simp only [List.mem_append] at hs
  rcases hs with ((((((((((hs | hs) | hs) | hs) | hs) | hs) | hs) | hs) | hs) | hs) | hs)
  · cases fg with
    | none => simp at hs
    | some f =>
      simp only [List.mem_singleton] at hs
      subst hs
      apply hP
  · cases vx with
    | none => simp at hs
    | some v =>
      by_cases hv : v = 0
      · simp [hv] at hs
      · simp only [if_neg hv, List.mem_singleton] at hs
        subst hs
        apply hP
  · cases spy with
    | none => simp at hs
    | some x =>
      simp only [List.mem_singleton] at hs
      subst hs
      apply hP
  · cases buf with
    | none => simp at hs
    | some x =>
      simp only [List.mem_singleton] at hs
      subst hs
      apply hP
  · cases er with
    | none => simp at hs
    | some x =>
      simp only [List.mem_singleton] at hs
      subst hs
      apply hP
  · cases fbs with
    | none => simp at hs
    | some x =>
      simp only [List.mem_singleton] at hs
      subst hs
      apply hP
  · cases m2g with
    | none => simp at hs
    | some x =>
      simp only [List.mem_singleton] at hs
      subst hs
      apply hP
  · cases hys with
    | none => simp at hs
    | some v =>
      by_cases hv : v = 0
      · simp [hv] at hs
      · simp only [if_neg hv, List.mem_singleton] at hs
        subst hs
        apply hP
  · cases yc2 with
    | none => simp at hs
    | some x =>
      simp only [List.mem_singleton] at hs
      subst hs
      apply hP
  · cases yc3 with
    | none => simp at hs
    | some x =>
      simp only [List.mem_singleton] at hs
      subst hs
      apply hP
  · cases ic with
    | none => simp at hs
    | some x =>
      simp only [List.mem_singleton] at hs
      subst hs
      apply hP

/-- C6: every entry produced by `calculateIndicatorScores` has both its
`baseScore` and its final `score` inside the closed interval from 15 to 85. -/
theorem calculateIndicatorScores_extreme_cap (data : MarketIndicators)
    (history : List MarketHistoryRecord) :
    ∀ s ∈ calculateIndicatorScores data history,
      15 ≤ s.baseScore ∧ s.baseScore ≤ 85 ∧ 15 ≤ s.score ∧ s.score ≤ 85 := by
  apply calculateIndicatorScores_forall
  intro history name value rawValue baseScoreRaw category range description vmin vmax
    historyField invert
  rw [addIndicator_score_eq, addIndicator_baseScore_eq]
  exact ⟨(applyExtremeCap_bounds _).1, (applyExtremeCap_bounds _).2,
    (applyExtremeCap_bounds _).1, (applyExtremeCap_bounds _).2⟩

/-- The snapshot whose only populated field is a VIX of 20. -/
def vixOnlyData : MarketIndicators :=
  ⟨none, some 20, none, none, none, none, none, none, none, none, none, none, ""⟩

/-- The single entry `calculateIndicatorScores` produces for `vixOnlyData`
with empty history. -/
def vixEntry : IndicatorScore :=
  addIndicator [] ("VIX") (NumOrStr.str (jsToFixed 20 1)) 20 (normalizeScore 20 12 40 false)
    ("sentiment") ("12-40") ("높을수록(공포) 매력 상승. 40+ 패닉은 적극 매수 구간") 12 40
    HistoryField.vix false

/-- `vixEntry` really is produced by `calculateIndicatorScores`. -/
lemma vixEntry_mem : vixEntry ∈ calculateIndicatorScores vixOnlyData [] := by
  unfold calculateIndicatorScores vixOnlyData vixEntry
  norm_num

/-- C6 witness: the cap bounds at the concrete VIX-only snapshot. -/
theorem calculateIndicatorScores_extreme_cap_witness :
    15 ≤ vixEntry.baseScore ∧ vixEntry.baseScore ≤ 85 ∧
      15 ≤ vixEntry.score ∧ vixEntry.score ≤ 85 :=
  calculateIndicatorScores_extreme_cap vixOnlyData [] vixEntry vixEntry_mem

/-- C8: every entry carries a leading/coincident/lagging classification whose
current/momentum weight pair is 0.5/0.5, 0.7/0.3 or 0.9/0.1 respectively,
and its final score is the extreme-capped blend with those weights. -/
theorem calculateIndicatorScores_timing_blend (data : MarketIndicators)
    (history : List MarketHistoryRecord) :
    ∀ s ∈ calculateIndicatorScores data history,
      ∃ currentWeight momentumWeight : ℚ,
        ((s.timing = IndicatorTiming.leading ∧ currentWeight = 0.5 ∧ momentumWeight = 0.5) ∨
         (s.timing = IndicatorTiming.coincident ∧ currentWeight = 0.7 ∧ momentumWeight = 0.3) ∨
         (s.timing = IndicatorTiming.lagging ∧ currentWeight = 0.9 ∧ momentumWeight = 0.1)) ∧
        s.score =
          applyExtremeCap (s.baseScore * currentWeight + s.momentumScore * momentumWeight)
            15 85 := by
  apply calculateIndicatorScores_forall
  intro history name value rawValue baseScoreRaw category range description vmin vmax
    historyField invert
  refine ⟨(timingOf name).currentWeight, (timingOf name).momentumWeight, ?_, ?_⟩
  · rw [addIndicator_timing_eq]
    rcases timingOf_cases name with h | h | h
    · exact Or.inl ⟨by rw [h], by rw [h], by rw [h]⟩
    · exact Or.inr (Or.inl ⟨by rw [h], by rw [h], by rw [h]⟩)
    · exact Or.inr (Or.inr ⟨by rw [h], by rw [h], by rw [h]⟩)
  · exact addIndicator_score_eq history name value rawValue baseScoreRaw category range
      description vmin vmax historyField invert

/-- C8 witness: the timing blend at the concrete VIX-only snapshot. -/
theorem calculateIndicatorScores_timing_blend_witness :
    ∃ currentWeight momentumWeight : ℚ,
      ((vixEntry.timing = IndicatorTiming.leading ∧ currentWeight = 0.5 ∧ momentumWeight = 0.5) ∨
       (vixEntry.timing = IndicatorTiming.coincident ∧ currentWeight = 0.7 ∧ momentumWeight = 0.3) ∨
       (vixEntry.timing = IndicatorTiming.lagging ∧ currentWeight = 0.9 ∧ momentumWeight = 0.1)) ∧
      vixEntry.score =
        applyExtremeCap (vixEntry.baseScore * currentWeight + vixEntry.momentumScore * momentumWeight)
          15 85 :=
  calculateIndicatorScores_timing_blend vixOnlyData [] vixEntry vixEntry_mem

/-- The source's `invert ? normalizeScore(v, min, max, true)
: normalizeScore(v, min, max, false)` collapses to one call. -/
lemma normalize_invert_fold (v vmin vmax : ℚ) (invert : Bool) :
    (if invert then normalizeScore v vmin vmax true else normalizeScore v vmin vmax false) =
      normalizeScore v vmin vmax invert := by
  cases invert <;> rfl

/-- `calculateMomentumScore` on a present past score, as a closed formula. -/
lemma calculateMomentumScore_some (c t : ℚ) :
    calculateMomentumScore c (some t) = max 0 (min 100 ((c - t + 30) / 60 * 100)) := rfl

/-- C4 amended: when a historical value exists it comes from the record at
index `max(0, length − 13)`; the past score is normalized with the same
bounds and inversion as the current one but NOT extreme-capped, and the
momentum formula compares the uncapped raw scores:
`momentumScore = clamp(((baseScoreRaw − pastScore) + 30)/60·100, 0, 100)`. -/
theorem addIndicator_momentum (history : List MarketHistoryRecord) (name : String)
    (value : NumOrStr) (rawValue baseScoreRaw : ℚ) (category range description : String)
    (vmin vmax : ℚ) (historyField : HistoryField) (invert : Bool) (v : ℚ)
    (hv : getThreeMonthAgoValue history historyField = some v) :
    (∃ record, history.get? (history.length - 13) = some record ∧
        getField historyField record = some v) ∧
    (addIndicator history name value rawValue baseScoreRaw category range description
        vmin vmax historyField invert).momentumScore =
      max 0 (min 100 ((baseScoreRaw - normalizeScore v vmin vmax invert + 30) / 60 * 100)) := by
  constructor
  · unfold getThreeMonthAgoValue at hv
    split at hv
    · exact absurd hv (by simp)
    · rename_i record heq
      exact ⟨record, heq, hv⟩
  · unfold addIndicator
    dsimp only
    rw [hv]
    dsimp only
    rw [normalize_invert_fold]
    exact calculateMomentumScore_some _ _

/-- History whose single record carries a VIX of 12. -/
def histRec12 : MarketHistoryRecord :=
  ⟨"", none, some 12, none, none, none, none, none, none, none, none, none, 0⟩

/-- Snapshot whose only populated field is a VIX of 17.6. -/
def vixData176 : MarketIndicators :=
  ⟨none, some 17.6, none, none, none, none, none, none, none, none, none, none, ""⟩

/-- C4 counterexample: in a real `calculateIndicatorScores` run (current VIX
17.6, VIX 12 three months ago) the code's momentum score is 250/3, but the
claim's formula over extreme-capped base scores gives 175/3. -/
theorem addIndicator_momentum_counterexample :
    ((calculateIndicatorScores vixData176 [histRec12]).map (fun s => s.momentumScore)) =
      [250/3] ∧
    max 0 (min 100 ((applyExtremeCap (normalizeScore 17.6 12 40 false) 15 85 -
        applyExtremeCap (normalizeScore 12 12 40 false) 15 85 + 30) / 60 * 100)) = 175/3 ∧
    (250/3 : ℚ) ≠ 175/3 := by
  refine ⟨?_, ?_, by norm_num⟩
  · norm_num [calculateIndicatorScores, vixData176, histRec12, addIndicator,
      getThreeMonthAgoValue, getField, normalizeScore, calculateMomentumScore,
      applyExtremeCap, timingOf, indicatorTiming, min_def, max_def]
  · norm_num [normalizeScore, applyExtremeCap, min_def, max_def]

/-- C4 witness: the amended momentum equation applied at the concrete VIX
inputs 17.6 (current) and 12 (three months ago). -/
theorem addIndicator_momentum_witness :
    (∃ record, ([histRec12] : List MarketHistoryRecord).get?
        (([histRec12] : List MarketHistoryRecord).length - 13) = some record ∧
        getField HistoryField.vix record = some 12) ∧
    (addIndicator [histRec12] ("VIX") (NumOrStr.str (jsToFixed 17.6 1)) 17.6
        (normalizeScore 17.6 12 40 false) ("sentiment") ("12-40")
        ("높을수록(공포) 매력 상승. 40+ 패닉은 적극 매수 구간") 12 40 HistoryField.vix
        false).momentumScore =
      max 0 (min 100 ((normalizeScore 17.6 12 40 false -
        normalizeScore 12 12 40 false + 30) / 60 * 100)) :=
  addIndicator_momentum [histRec12] ("VIX") (NumOrStr.str (jsToFixed 17.6 1)) 17.6
    (normalizeScore 17.6 12 40 false) ("sentiment") ("12-40")
    ("높을수록(공포) 매력 상승. 40+ 패닉은 적극 매수 구간") 12 40 HistoryField.vix false 12 rfl

/-- Which names can appear in `calculateIndicatorScores` output, recording
for the truthiness-guarded VIX and HY Spread blocks that their raw value was
present and nonzero. -/
lemma calculateIndicatorScores_name_mem (data : MarketIndicators)
    (history : List MarketHistoryRecord) (s : IndicatorScore)
    (hs : s ∈ calculateIndicatorScores data history) :
    s.name = "Fear & Greed" ∨
    (s.name = "VIX" ∧ ∃ v, data.vix = some v ∧ ¬v = 0) ∨
    s.name = "S&P vs 200MA" ∨
    s.name = "Buffett Indicator" ∨
    s.name = "Equity Risk Premium" ∨
    s.name = "Fed Balance Sheet" ∨
    s.name = "M2 Growth" ∨
    (s.name = "HY Spread" ∧ ∃ v, data.highYieldSpread = some v ∧ ¬v = 0) ∨
    s.name = "Yield Curve 10Y-2Y" ∨
    s.name = "Yield Curve 10Y-3M" ∨
    s.name = "Initial Claims" := by
  rcases data with ⟨fg, vx, spy, buf, fbs, m2g, hys, yc2, yc3, ic, er, t3, lu⟩
  dsimp only
  unfold calculateIndicatorScores at hs
  dsimp only at hs
  simp only [List.mem_append] at hs
  rcases hs with ((((((((((hs | hs) | hs) | hs) | hs) | hs) | hs) | hs) | hs) | hs) | hs)
  · cases fg with
    | none => simp at hs
    | some f =>
      simp only [List.mem_singleton] at hs
      subst hs
      exact Or.inl rfl
  · cases vx with
    | none => simp at hs
    | some v =>
      by_cases hv : v = 0
      · simp [hv] at hs
      · simp only [if_neg hv, List.mem_singleton] at hs
        subst hs
        exact Or.inr (Or.inl ⟨rfl, v, rfl, hv⟩)
  · cases spy with
    | none => simp at hs
    | some x =>
      simp only [List.mem_singleton] at hs
      subst hs
      exact Or.inr (Or.inr (Or.inl rfl))
  · cases buf with
    | none => simp at hs
    | some x =>
      simp only [List.mem_singleton] at hs
      subst hs
      exact Or.inr (Or.inr (Or.inr (Or.inl rfl)))
  · cases er with
    | none => simp at hs
    | some x =>
      simp only [List.mem_singleton] at hs
      subst hs
      exact Or.inr (Or.inr (Or.inr (Or.inr (Or.inl rfl))))
  · cases fbs with
    | none => simp at hs
    | some x =>
      simp only [List.mem_singleton] at hs
      subst hs
      exact Or.inr (Or.inr (Or.inr (Or.inr (Or.inr (Or.inl rfl)))))
  · cases m2g with
    | none => simp at hs
    | some x =>
      simp only [List.mem_singleton] at hs
      subst hs
      exact Or.inr (Or.inr (Or.inr (Or.inr (Or.inr (Or.inr (Or.inl rfl))))))
  · cases hys with
    | none => simp at hs
    | some v =>
      by_cases hv : v = 0
      · simp [hv] at hs
      · simp only [if_neg hv, List.mem_singleton] at hs
        subst hs
        exact Or.inr (Or.inr (Or.inr (Or.inr (Or.inr (Or.inr (Or.inr (Or.inl ⟨rfl, v, rfl, hv⟩)))))))
  · cases yc2 with
    | none => simp at hs
    | some x =>
      simp only [List.mem_singleton] at hs
      subst hs
      exact Or.inr (Or.inr (Or.inr (Or.inr (Or.inr (Or.inr (Or.inr (Or.inr (Or.inl rfl))))))))
  · cases yc3 with
    | none => simp at hs
    | some x =>
      simp only [List.mem_singleton] at hs
      subst hs
      exact Or.inr (Or.inr (Or.inr (Or.inr (Or.inr (Or.inr (Or.inr (Or.inr (Or.inr (Or.inl rfl)))))))))
  · cases ic with
    | none => simp at hs
    | some x =>
      simp only [List.mem_singleton] at hs
      subst hs
      exact Or.inr (Or.inr (Or.inr (Or.inr (Or.inr (Or.inr (Or.inr (Or.inr (Or.inr (Or.inr rfl)))))))))

/-- C10: a `vix` or `highYieldSpread` equal to exactly 0 produces no VIX /
HY Spread entry (JavaScript truthiness treats 0 like an absent value), while
zero `yieldCurve10Y2Y`, `yieldCurve10Y3M` and `erp` values do produce their
entries. -/
theorem calculateIndicatorScores_zero_truthiness (data : MarketIndicators)
    (history : List MarketHistoryRecord) :
    (data.vix = some 0 →
      ∀ s ∈ calculateIndicatorScores data history, s.name ≠ "VIX") ∧
    (data.highYieldSpread = some 0 →
      ∀ s ∈ calculateIndicatorScores data history, s.name ≠ "HY Spread") ∧
    (data.yieldCurve10Y2Y = some 0 →
      ∃ s ∈ calculateIndicatorScores data history, s.name = "Yield Curve 10Y-2Y") ∧
    (data.yieldCurve10Y3M = some 0 →
      ∃ s ∈ calculateIndicatorScores data history, s.name = "Yield Curve 10Y-3M") ∧
    (data.erp = some 0 →
      ∃ s ∈ calculateIndicatorScores data history, s.name = "Equity Risk Premium") := by
  refine ⟨?_, ?_, ?_, ?_, ?_⟩
  · intro h0 s hs hname
    have hmem := calculateIndicatorScores_name_mem data history s hs
    rw [hname] at hmem
    simp at hmem
    rcases hmem with ⟨v, hv, hvz⟩
    rw [h0] at hv
    injection hv with hv2
    exact hvz hv2.symm
  · intro h0 s hs hname
    have hmem := calculateIndicatorScores_name_mem data history s hs
    rw [hname] at hmem
    simp at hmem
    rcases hmem with ⟨v, hv, hvz⟩
    rw [h0] at hv
    injection hv with hv2
    exact hvz hv2.symm
  · intro h0
    refine ⟨addIndicator history ("Yield Curve 10Y-2Y")
        (NumOrStr.str (plusSign 0 ++ jsToFixed 0 2 ++ "%")) 0
        (normalizeScore 0 (-1) 2 false) ("macro") ("-1% ~ +2%")
        ("정상(+)일수록 매력 상승. 역전(-) = 침체 우려") (-1) 2
        HistoryField.yield_curve_10y2y false, ?_, rfl⟩
    unfold calculateIndicatorScores
    rw [h0]
    exact List.mem_append_left _ (List.mem_append_left _
      (List.mem_append_right _ (List.mem_singleton_self _)))
  · intro h0
    refine ⟨addIndicator history ("Yield Curve 10Y-3M")
        (NumOrStr.str (plusSign 0 ++ jsToFixed 0 2 ++ "%")) 0
        (normalizeScore 0 (-1) 2 false) ("macro") ("-1% ~ +2%")
        ("연준 중시 지표. 정상(+)일수록 매력 상승") (-1) 2
        HistoryField.yield_curve_10y3m false, ?_, rfl⟩
    unfold calculateIndicatorScores
    rw [h0]
    exact List.mem_append_left _
      (List.mem_append_right _ (List.mem_singleton_self _))
  · intro h0
    refine ⟨addIndicator history ("Equity Risk Premium")
        (NumOrStr.str (plusSign 0 ++ jsToFixed 0 2 ++ "%")) 0
        (normalizeScore 0 (-2) 6 false) ("valuation") ("-2% ~ +6%")
        ("채권 대비 주식 초과수익률. 높을수록 매력 상승") (-2) 6
        HistoryField.erp false, ?_, rfl⟩
    unfold calculateIndicatorScores
    rw [h0]
    exact List.mem_append_left _ (List.mem_append_left _ (List.mem_append_left _
      (List.mem_append_left _ (List.mem_append_left _ (List.mem_append_left _
        (List.mem_append_right _ (List.mem_singleton_self _)))))))

/-- Snapshot where vix, highYieldSpread, both yield curves and erp are all
exactly 0. -/
def zeroesData : MarketIndicators :=
  ⟨none, some 0, none, none, none, none, some 0, some 0, some 0, none, some 0, none, ""⟩

/-- C10 witness: the truthiness behaviour at the all-zero snapshot. -/
theorem calculateIndicatorScores_zero_truthiness_witness :
    (∀ s ∈ calculateIndicatorScores zeroesData [], s.name ≠ "VIX") ∧
    (∀ s ∈ calculateIndicatorScores zeroesData [], s.name ≠ "HY Spread") ∧
    (∃ s ∈ calculateIndicatorScores zeroesData [], s.name = "Yield Curve 10Y-2Y") ∧
    (∃ s ∈ calculateIndicatorScores zeroesData [], s.name = "Yield Curve 10Y-3M") ∧
    (∃ s ∈ calculateIndicatorScores zeroesData [], s.name = "Equity Risk Premium") := by
  have h := calculateIndicatorScores_zero_truthiness zeroesData []
  exact ⟨h.1 rfl, h.2.1 rfl, h.2.2.1 rfl, h.2.2.2.1 rfl, h.2.2.2.2 rfl⟩

/-- The `indicatorToHistoryField` record from `src/Market.tsx`. -/
def indicatorToHistoryField (name : String) : Option HistoryField :=
  match name with
  | "Fear & Greed" => some .fear_greed
  | "VIX" => some .vix
  | "S&P vs 200MA" => some .spy_vs_200ma
  | "Buffett Indicator" => some .buffett_indicator
  | "Equity Risk Premium" => some .erp
  | "Fed Balance Sheet" => some .fed_balance_sheet_yoy
  | "M2 Growth" => some .m2_growth_yoy
  | "HY Spread" => some .hy_spread
  | "Yield Curve 10Y-2Y" => some .yield_curve_10y2y
  | "Yield Curve 10Y-3M" => some .yield_curve_10y3m
  | "Initial Claims" => some .initial_claims
  | _ => none

/-- The `indicatorKoreanName` record from `src/Market.tsx` (a missing key
interpolates as the string `undefined` in JavaScript). -/
def indicatorKoreanName (name : String) : String :=
  match name with
  | "Fear & Greed" => "공포탐욕지수"
  | "VIX" => "변동성지수"
  | "S&P vs 200MA" => "S&P 200일선 대비"
  | "Buffett Indicator" => "버핏지표"
  | "Equity Risk Premium" => "주식위험프리미엄"
  | "Fed Balance Sheet" => "연준 대차대조표"
  | "M2 Growth" => "M2 통화량"
  | "HY Spread" => "하이일드 스프레드"
  | "Yield Curve 10Y-2Y" => "장단기금리차 10Y-2Y"
  | "Yield Curve 10Y-3M" => "장단기금리차 10Y-3M"
  | "Initial Claims" => "신규실업수당청구"
  | _ => "undefined"

/-- JavaScript string interpolation of an `IndicatorScore.value`: display
strings pass through unchanged.  The numeric case arises only for the
`Fear & Greed` entry, which has no commentary template, so it never reaches
interpolation; integers print the JavaScript way and other rationals are
approximated by their Lean rendering. -/
def NumOrStr.render : NumOrStr → String
  | .str s => s
  | .num q => if q.den = 1 then toString q.num else toString q

/-- The non-null history values of one indicator, sorted ascending
(`marketHistory.map(...).filter(v => v !== null).sort((a, b) => a - b)`). -/
def sortedHistoryValues (marketHistory : List MarketHistoryRecord)
    (historyField : HistoryField) : List ℚ :=
  (marketHistory.filterMap (getField historyField)).mergeSort (fun a b => decide (a ≤ b))

/-- `rank = count(historyValues <= currentValue)`;
`percentile = Math.round(rank / len * 100)`. -/
def percentileOf (historyValues : List ℚ) (currentValue : ℚ) : ℤ :=
  let rank := (historyValues.filter (fun v => decide (v ≤ currentValue))).length
  mathRound ((rank : ℚ) / (historyValues.length : ℚ) * 100)

/-- The body of the `for` loop in `generateExtremeIndicatorCommentary`
(`src/Market.tsx`): the commentary line generated for one indicator, when
one is generated. -/
def commentaryFor (marketHistory : List MarketHistoryRecord)
    (indicator : IndicatorScore) : Option String :=
  match indicatorToHistoryField indicator.name with
  | none => none
  | some historyField =>
    let historyValues := sortedHistoryValues marketHistory historyField
    if historyValues.length < 10 then none
    else
      let currentValue := indicator.rawValue
      let koreanName := indicatorKoreanName indicator.name
      let percentile := percentileOf historyValues currentValue
      if percentile ≤ 20 ∨ 80 ≤ percentile then
        let isExtremeLow := percentile ≤ 20
        let extremeLabel := if isExtremeLow then "하위 " ++ toString percentile ++ "%"
          else "상위 " ++ toString (100 - percentile) ++ "%"
        let v := indicator.value.render
        if indicator.name = "VIX" then
          some (if isExtremeLow then
              koreanName ++ "가 " ++ v ++ "로 " ++ extremeLabel ++
                " 수준입니다. 시장 안도감이 높아 조정 가능성에 유의하세요."
            else
              koreanName ++ "가 " ++ v ++ "로 " ++ extremeLabel ++
                " 수준의 공포 구간입니다. 역사적으로 높은 VIX는 매수 기회였습니다.")
        else if indicator.name = "HY Spread" then
          some (if isExtremeLow then
              koreanName ++ "가 " ++ v ++ "로 " ++ extremeLabel ++
                " 수준입니다. 신용 리스크 경계심이 낮아 주의가 필요합니다."
            else
              koreanName ++ "가 " ++ v ++ "로 " ++ extremeLabel ++
                " 수준입니다. 신용 스트레스가 높지만 역발상 매수 기회일 수 있습니다.")
        else if indicator.name = "Initial Claims" then
          some (if isExtremeLow then
              koreanName ++ "가 " ++ v ++ "로 " ++ extremeLabel ++
                " 수준입니다. 고용시장이 과열 상태로 긴축 지속 가능성이 있습니다."
            else
              koreanName ++ "가 " ++ v ++ "로 " ++ extremeLabel ++
                " 수준입니다. 고용 악화는 연준 완화 전환 신호일 수 있습니다.")
        else if indicator.name = "S&P vs 200MA" then
          some (if isExtremeLow then
              "S&P500이 200일선 대비 " ++ v ++ "로 " ++ extremeLabel ++
                " 수준입니다. 기술적으로 저점 매수 구간입니다."
            else
              "S&P500이 200일선 대비 " ++ v ++ "로 " ++ extremeLabel ++
                " 수준입니다. 과열 구간으로 추격 매수는 주의하세요.")
        else if indicator.name = "Yield Curve 10Y-2Y" then
          some (if isExtremeLow then
              koreanName ++ "가 " ++ v ++ "로 " ++ extremeLabel ++
                " 수준의 역전 상태입니다. 경기 침체 우려가 있지만 주가는 선반영하는 경향이 있습니다."
            else
              koreanName ++ "가 " ++ v ++ "로 정상화되어 " ++ extremeLabel ++
                " 수준입니다. 경기 회복 기대가 반영되고 있습니다.")
        else none
      else none

/-- The commentary-accumulating loop of `generateExtremeIndicatorCommentary`
with its `if (commentaries.length >= 2) break` early exit. -/
def commentaryLoop (marketHistory : List MarketHistoryRecord) (acc : List String) :
    List IndicatorScore → List String
  | [] => acc
  | indicator :: rest =>
    let acc2 := match commentaryFor marketHistory indicator with
      | some line => acc ++ [line]
      | none => acc
    if 2 ≤ acc2.length then acc2 else commentaryLoop marketHistory acc2 rest

/-- `generateExtremeIndicatorCommentary` from `src/Market.tsx`.  The
`indicatorWeights` record is modelled as a total function (an absent key
reads as 0 through the source's `|| 0`); the stable JavaScript sort by
descending weight is realised by the stable `List.mergeSort`. -/
def generateExtremeIndicatorCommentary (coreIndicators : List IndicatorScore)
    (marketHistory : List MarketHistoryRecord)
    (indicatorWeights : String → ℚ) : List String :=
  let sortedIndicators := coreIndicators.mergeSort
    (fun a b => decide (indicatorWeights b.name ≤ indicatorWeights a.name))
  commentaryLoop marketHistory [] sortedIndicators

/-- The commentary loop with its break equals taking the first two generated
lines, provided fewer than two lines are accumulated so far. -/
lemma commentaryLoop_eq (marketHistory : List MarketHistoryRecord) (acc : List String)
    (l : List IndicatorScore) (hacc : acc.length ≤ 1) :
    commentaryLoop marketHistory acc l =
      (acc ++ l.filterMap (commentaryFor marketHistory)).take 2 := by
  induction l generalizing acc with
  | nil =>
    simp only [commentaryLoop, List.filterMap_nil, List.append_nil]
    exact (List.take_of_length_le (by omega)).symm
  | cons indicator rest ih =>
    simp only [commentaryLoop]
    cases hc : commentaryFor marketHistory indicator with
    | none =>
      dsimp only
      rw [if_neg (by omega), List.filterMap_cons_none hc]
      exact ih acc hacc
    | some line =>
      dsimp only
      rw [List.filterMap_cons_some hc]
      rcases Nat.lt_or_ge acc.length 1 with h1 | h1
      · have hnil : acc = [] := List.eq_nil_of_length_eq_zero (by omega)
        subst hnil
        rw [if_neg (by simp)]
        simp only [List.nil_append]
        rw [ih [line] (by simp)]
        simp
      · have h2 : acc.length = 1 := by omega
        rw [if_pos (by simp [h2])]
        obtain ⟨a, rfl⟩ := List.length_eq_one.mp h2
        simp [List.take]

/-- The weight-descending sort used by the commentary generator really is
sorted by descending configured weight. -/
lemma sortIndicators_sorted (coreIndicators : List IndicatorScore) (w : String → ℚ) :
    List.Sorted (fun a b => w b.name ≤ w a.name)
      (coreIndicators.mergeSort (fun a b => decide (w b.name ≤ w a.name))) := by
  have htrans : ∀ a b c : IndicatorScore,
      (fun a b : IndicatorScore => decide (w b.name ≤ w a.name)) a b →
      (fun a b : IndicatorScore => decide (w b.name ≤ w a.name)) b c →
      (fun a b : IndicatorScore => decide (w b.name ≤ w a.name)) a c := by
    intro a b c hab hbc
    simp only [decide_eq_true_eq] at hab hbc ⊢
    exact le_trans hbc hab
  have htotal : ∀ a b : IndicatorScore,
      ((fun a b : IndicatorScore => decide (w b.name ≤ w a.name)) a b ||
        (fun a b : IndicatorScore => decide (w b.name ≤ w a.name)) b a) := by
    intro a b
    simp only [Bool.or_eq_true, decide_eq_true_eq]
    exact le_total (w b.name) (w a.name)
  have h := List.sorted_mergeSort htrans htotal coreIndicators
  exact h.imp (fun hab => of_decide_eq_true hab)

/-- A commentary line is generated for an indicator only when a history field
exists for its name, that field has at least ten non-null history points, and
the percentile of the current raw value is at most 20 or at least 80. -/
lemma commentaryFor_eligible (marketHistory : List MarketHistoryRecord)
    (indicator : IndicatorScore) (line : String)
    (h : commentaryFor marketHistory indicator = some line) :
    ∃ historyField, indicatorToHistoryField indicator.name = some historyField ∧
      10 ≤ (sortedHistoryValues marketHistory historyField).length ∧
      (percentileOf (sortedHistoryValues marketHistory historyField) indicator.rawValue ≤ 20 ∨
        80 ≤ percentileOf (sortedHistoryValues marketHistory historyField) indicator.rawValue) := by
  unfold commentaryFor at h
  cases hf : indicatorToHistoryField indicator.name with
  | none =>
    rw [hf] at h
    exact absurd h (by simp)
  | some historyField =>
    rw [hf] at h
    dsimp only at h
    by_cases hlen : (sortedHistoryValues marketHistory historyField).length < 10
    · rw [if_pos hlen] at h
      exact absurd h (by simp)
    · rw [if_neg hlen] at h
      by_cases hpct : percentileOf (sortedHistoryValues marketHistory historyField)
            indicator.rawValue ≤ 20 ∨
          80 ≤ percentileOf (sortedHistoryValues marketHistory historyField) indicator.rawValue
      · exact ⟨historyField, rfl, by omega, hpct⟩
      · rw [if_neg hpct] at h
        exact absurd h (by simp)

/-- C9: the extreme-indicator commentary returns at most 2 lines, equals the
first two lines generated along the weight-descending order (which is really
sorted by descending configured weight), and a line is generated for an
indicator only if its history has at least 10 non-null points and its
percentile over the sorted history values is at most 20 or at least 80. -/
theorem generateExtremeIndicatorCommentary_spec (coreIndicators : List IndicatorScore)
    (marketHistory : List MarketHistoryRecord) (indicatorWeights : String → ℚ) :
    (generateExtremeIndicatorCommentary coreIndicators marketHistory indicatorWeights).length ≤ 2 ∧
    generateExtremeIndicatorCommentary coreIndicators marketHistory indicatorWeights =
      ((coreIndicators.mergeSort
          (fun a b => decide (indicatorWeights b.name ≤ indicatorWeights a.name))).filterMap
        (commentaryFor marketHistory)).take 2 ∧
    List.Sorted (fun a b => indicatorWeights b.name ≤ indicatorWeights a.name)
      (coreIndicators.mergeSort
        (fun a b => decide (indicatorWeights b.name ≤ indicatorWeights a.name))) ∧
    ∀ line ∈ generateExtremeIndicatorCommentary coreIndicators marketHistory indicatorWeights,
      ∃ ind ∈ coreIndicators, ∃ historyField,
        indicatorToHistoryField ind.name = some historyField ∧
        10 ≤ (sortedHistoryValues marketHistory historyField).length ∧
        (percentileOf (sortedHistoryValues marketHistory historyField) ind.rawValue ≤ 20 ∨
          80 ≤ percentileOf (sortedHistoryValues marketHistory historyField) ind.rawValue) := by
  have heq : generateExtremeIndicatorCommentary coreIndicators marketHistory indicatorWeights =
      ((coreIndicators.mergeSort
          (fun a b => decide (indicatorWeights b.name ≤ indicatorWeights a.name))).filterMap
        (commentaryFor marketHistory)).take 2 := by
    unfold generateExtremeIndicatorCommentary
    exact commentaryLoop_eq marketHistory [] _ (by simp)
  refine ⟨?_, heq, sortIndicators_sorted coreIndicators indicatorWeights, ?_⟩
  · rw [heq]
    exact List.length_take_le 2 _
  · intro line hline
    rw [heq] at hline
    have h1 := List.mem_of_mem_take hline
    obtain ⟨ind, hmem, hcf⟩ := List.mem_filterMap.mp h1
    have hmem2 : ind ∈ coreIndicators := List.mem_mergeSort.mp hmem
    obtain ⟨historyField, hhf, hlen, hpct⟩ :=
      commentaryFor_eligible marketHistory ind line hcf
    exact ⟨ind, hmem2, historyField, hhf, hlen, hpct⟩

/-- A history record carrying only a VIX value. -/
def histVixRec (v : ℚ) : MarketHistoryRecord :=
  ⟨"", none, some v, none, none, none, none, none, none, none, none, none, 0⟩

/-- Ten history records with VIX values 1 through 10. -/
def commentaryHistory : List MarketHistoryRecord :=
  [histVixRec 1, histVixRec 2, histVixRec 3, histVixRec 4, histVixRec 5,
    histVixRec 6, histVixRec 7, histVixRec 8, histVixRec 9, histVixRec 10]

/-- A VIX indicator entry whose raw value 0 sits below the whole history. -/
def commentaryInd : IndicatorScore :=
  ⟨"VIX", NumOrStr.str ("20.0"), 50, 50, 50, "sentiment", "12-40", "", 0, 12, 40,
    IndicatorTiming.coincident⟩

unseal List.merge List.mergeSort in
/-- The witness history really has ten non-null VIX values. -/
lemma commentary_hlen : (sortedHistoryValues commentaryHistory HistoryField.vix).length = 10 := by
  decide

unseal List.merge List.mergeSort in
/-- No history value lies at or below the witness indicator's raw value. -/
lemma commentary_hrank : ((sortedHistoryValues commentaryHistory HistoryField.vix).filter
    (fun v => decide (v ≤ commentaryInd.rawValue))).length = 0 := by
  decide

/-- The witness indicator sits at the 0th percentile of its history. -/
lemma commentary_hpct : percentileOf (sortedHistoryValues commentaryHistory HistoryField.vix)
    commentaryInd.rawValue = 0 := by
  unfold percentileOf
  rw [commentary_hrank, commentary_hlen]
  norm_num [mathRound]

/-- The witness indicator generates a commentary line. -/
lemma commentary_hsome : (commentaryFor commentaryHistory commentaryInd).isSome = true := by
  unfold commentaryFor
  rw [show indicatorToHistoryField commentaryInd.name = some HistoryField.vix from rfl]
  dsimp only
  rw [if_neg (by rw [commentary_hlen]; omega)]
  rw [if_pos (Or.inl (by rw [commentary_hpct]; norm_num))]
  rw [if_pos (show commentaryInd.name = "VIX" from rfl)]
  rfl

/-- C9 witness: at a concrete extreme VIX reading the generator emits a line
whose indicator satisfies the eligibility conditions, and the line count
stays at most 2. -/
theorem generateExtremeIndicatorCommentary_spec_witness :
    (generateExtremeIndicatorCommentary [commentaryInd] commentaryHistory
        (fun _ => 0)).length ≤ 2 ∧
    ∃ ind ∈ [commentaryInd], ∃ historyField,
      indicatorToHistoryField ind.name = some historyField ∧
      10 ≤ (sortedHistoryValues commentaryHistory historyField).length ∧
      (percentileOf (sortedHistoryValues commentaryHistory historyField) ind.rawValue ≤ 20 ∨
        80 ≤ percentileOf (sortedHistoryValues commentaryHistory historyField) ind.rawValue) := by
  obtain ⟨line, hline⟩ := Option.isSome_iff_exists.mp commentary_hsome
  have hmem : line ∈ generateExtremeIndicatorCommentary [commentaryInd] commentaryHistory
      (fun _ => 0) := by
    rw [(generateExtremeIndicatorCommentary_spec [commentaryInd] commentaryHistory
      (fun _ => 0)).2.1]
    simp [List.filterMap_cons_some hline]
  exact ⟨(generateExtremeIndicatorCommentary_spec [commentaryInd] commentaryHistory
      (fun _ => 0)).1,
    (generateExtremeIndicatorCommentary_spec [commentaryInd] commentaryHistory
      (fun _ => 0)).2.2.2 line hmem⟩
